import Mathlib

/-!
# StoryboardAI — verification of the specified behaviours

A shallow embedding, in Lean 4, of the parts of the StoryboardAI repository
that the specification talks about: the script-analysis frame extractor, the
image-generator factory, the character-variant generator, the feedback loop
(`refine_frame`), and the React front-end handlers (actor creation, film-school
answer submission, stage progress, actor-selection toggle, image-URL
formatting, and frame padding with placeholders).

Python strings are modelled by `String`, Python lists by `List`, JavaScript
`null`/`undefined` by `Option`, raised exceptions by `Except`.  External calls
(the LLM, the image models, the backend API) are passed in as oracle
functions, so every definition is executable.
-/

namespace StoryboardAI

/-! ## String helpers shared by several functions

All helpers are written by structural recursion over the character list of the
string, so every definition evaluates by `decide` on concrete inputs.
`pyStrip` models Python `str.strip()` / JS `String.trim()`; `afterFirstDot`
models Python's `line.partition('.')[2]` (everything after the first `'.'`, or
`""` when the string has no dot); `strStartsWith` models JS
`String.startsWith`; `containsSub` models Python `in` / JS `String.includes`;
`jsSplit` models JS `String.split` with a non-empty separator. -/

def pyStrip (s : String) : String :=
  String.mk
    (((s.toList.dropWhile Char.isWhitespace).reverse.dropWhile
        Char.isWhitespace).reverse)

def afterFirstDot (s : String) : String :=
  String.mk ((s.toList.dropWhile (fun c => c != '.')).drop 1)

/-- The lines of a string, splitting at every newline character. -/
def splitLinesAux : List Char → List (List Char)
  | [] => [[]]
  | c :: cs =>
    match splitLinesAux cs with
    | [] => [[]]
    | r :: rs => if c = '\n' then [] :: r :: rs else (c :: r) :: rs

def pySplitlines (s : String) : List String :=
  (splitLinesAux s.toList).map String.mk

def strStartsWith (s pre : String) : Bool :=
  pre.toList.isPrefixOf s.toList

def containsList (sub : List Char) : List Char → Bool
  | [] => sub.isEmpty
  | c :: cs => sub.isPrefixOf (c :: cs) || containsList sub cs

def containsSub (s sub : String) : Bool :=
  containsList sub.toList s.toList

/-- Fuelled splitter: cuts the list at every non-overlapping occurrence of
`sep`, left to right.  Called with `fuel = l.length + 1`, which is enough for
any non-empty separator. -/
def splitOnFuel (sep : List Char) : Nat → List Char → List Char → List (List Char)
  | 0, l, acc => [acc.reverse ++ l]
  | _ + 1, [], acc => [acc.reverse]
  | fuel + 1, c :: cs, acc =>
    if sep.isPrefixOf (c :: cs) then
      acc.reverse :: splitOnFuel sep fuel ((c :: cs).drop sep.length) []
    else
      splitOnFuel sep fuel cs (c :: acc)

def jsSplit (s sep : String) : List String :=
  (splitOnFuel sep.toList (s.toList.length + 1) s.toList []).map String.mk

example : afterFirstDot "1. A hero appears" = " A hero appears" := by decide
example : afterFirstDot "no dot here" = "" := by decide
example : afterFirstDot "1.2.3" = "2.3" := by decide
example : pyStrip "  a b\n" = "a b" := by decide
example : pySplitlines "a\nb\n" = ["a", "b", ""] := by decide
example : jsSplit "xactor_images/y" "actor_images/" = ["x", "y"] := by decide

/-! ## Script analysis (`extract_key_frames`, backend implementation guide)

The Python code builds a prompt asking for `frame_count` key visual scenes,
sends it to the LLM, strips the response, and keeps
`line.partition('.')[2].strip()` for every line with
`line.strip() and line[0].isdigit()`. -/

def buildScriptPrompt (frame_count : Nat) (script_text : String) : String :=
  "You are a film storyboard assistant. Read the script below and divide it into " ++
  toString frame_count ++
  " key visual scenes. Provide a brief description for each of the " ++
  "frames, focusing on distinct important moments, with any key characters and actions.\n\n" ++
  "Script:\n" ++ script_text ++ "\n\nFrames:\n1."

/-- Python: `line.strip() and line[0].isdigit()` (short-circuit: the empty
string is falsy, so `line[0]` is only read on a non-empty line). -/
def keepLine (line : String) : Bool :=
  (pyStrip line != "") &&
    (match line.toList with
     | [] => false
     | c :: _ => c.isDigit)

/-- Python: `line.partition('.')[2].strip()`. -/
def frameDesc (line : String) : String :=
  pyStrip (afterFirstDot line)

def parseFramesText (frames_text : String) : List String :=
  (pySplitlines (pyStrip frames_text)).filterMap fun line =>
    if keepLine line then some (frameDesc line) else none

/-- Model of `extract_key_frames(script_text, frame_count=6)`, with the LLM call passed
in as an oracle from prompt to completion text. -/
def extract_key_frames (llm : String → String) (script_text : String)
    (frame_count : Nat := 6) : List String :=
  parseFramesText (llm (buildScriptPrompt frame_count script_text))

/-! ## Image generator factory (`get_image_generator`) -/

def OPENAI_API_KEY : String := "OPENAI_API_KEY"
def MJ_BOT_TOKEN : String := "MJ_BOT_TOKEN"

inductive ImageGenerator where
  | stableDiffusionGenerator (model_path : String)
  | dalleGenerator (api_key : String)
  | midjourneyGenerator (auth_token : String)
deriving DecidableEq, Repr

def get_image_generator (model_name : String) : Except String ImageGenerator :=
  if model_name = "stable_diffusion" then
    .ok (.stableDiffusionGenerator "stabilityai/stable-diffusion-XL-base-1.0")
  else if model_name = "dalle" then
    .ok (.dalleGenerator OPENAI_API_KEY)
  else if model_name = "midjourney" then
    .ok (.midjourneyGenerator MJ_BOT_TOKEN)
  else
    .error "Unsupported model"

/-! ## Film-school consultation stage progress (`updateStageProgress`)

JS:
`const stages = ["initial", "character_development", "plot_structure", "visual_style"];`
`const currentIndex = stages.indexOf(stage);`
`if (currentIndex >= 0) setStageProgress(Math.round(((currentIndex + 1) / stages.length) * 100));`
-/

def consultationStages : List String :=
  ["initial", "character_development", "plot_structure", "visual_style"]

/-- JS `Array.indexOf`: index of the first occurrence, `-1` when absent. -/
def jsIndexOf (x : String) : List String → Int
  | [] => -1
  | y :: ys =>
    if y = x then 0
    else
      let r := jsIndexOf x ys
      if r = -1 then -1 else r + 1

/-- Model of `updateStageProgress(stage)` acting on the stored `stageProgress` value;
`Math.round` is modelled by `round` on `ℚ`. -/
def updateStageProgress (stage : String) (stageProgress : Int) : Int :=
  let stages := consultationStages
  let currentIndex := jsIndexOf stage stages
  if currentIndex ≥ 0 then
    round (((currentIndex + 1 : ℚ) / stages.length) * 100)
  else
    stageProgress

/-! ## Actor-selection toggle (`handleActorSelection`)

JS: `prev.includes(actorName) ? prev.filter(name => name !== actorName)
: [...prev, actorName]`. -/

def handleActorSelection (prev : List String) (actorName : String) : List String :=
  if actorName ∈ prev then
    prev.filter (fun name => name != actorName)
  else
    prev ++ [actorName]

/-! ## Feedback loop (`refine_frame`, backend implementation guide)

The Python module keeps global state: `storyboard_frames` (frame
descriptions), `frames_to_actors`, `storyboard_images`, and the actor profile
database.  `ActorProfileDB` stores a float vector and a metadata text per
actor; only the metadata text is observable by the specified behaviour, so the
embedding keeps the metadata association list and elides the vectors.
`generate_frame_image` is an external call, passed in as the oracle `gen`. -/

structure StoryboardState where
  storyboard_frames : List String
  frames_to_actors : List (List String)
  storyboard_images : List String
  actor_metadata : List (String × String)
deriving DecidableEq, Repr

/-- Model of `ActorProfileDB.update_actor(name, feedback_notes=...)` restricted to its
metadata effect: no-op for unknown actors and empty notes, otherwise appends
`" " ++ notes` to the actor's metadata. -/
def update_actor (db : List (String × String)) (name feedback_notes : String) :
    List (String × String) :=
  if (db.lookup name).isNone then db
  else if feedback_notes = "" then db
  else db.map fun p => if p.1 = name then (p.1, p.2 ++ " " ++ feedback_notes) else p

/-- Model of `refine_frame(frame_index, feedback_text)`: appends the feedback to the
frame description, updates actor profiles mentioned with "more"/"less"
feedback, regenerates the image from the revised description, and stores it at
`frame_index`.  Returns the new state and the new image. -/
def refine_frame (gen : String → List String → String) (st : StoryboardState)
    (frame_index : Nat) (feedback_text : String) : StoryboardState × String :=
  let frame_desc := st.storyboard_frames.getD frame_index ""
  let revised_desc := frame_desc ++ ". Note: " ++ feedback_text
  let actors := st.frames_to_actors.getD frame_index []
  let db := actors.foldl
    (fun db actor =>
      if containsSub feedback_text actor &&
          (containsSub feedback_text "more" || containsSub feedback_text "less") then
        update_actor db actor feedback_text
      else db)
    st.actor_metadata
  let new_image := gen revised_desc actors
  ({ st with
      actor_metadata := db,
      storyboard_images := st.storyboard_images.set frame_index new_image },
   new_image)

/-! ## Actor creation (`handleCreateSubmit`, `ActorList.js`)

The create request plus the `fetchActors()` refresh is the oracle
`createAndRefresh`; validation failures never reach it. -/

structure CreateFormData where
  name : String
  description : String
  images : List String
  auto_generate_image : Bool
deriving DecidableEq, Repr

structure ActorSubmitResult where
  requestSent : Bool
  createError : Option String
  actors : List String
deriving DecidableEq, Repr

def handleCreateSubmit (createAndRefresh : CreateFormData → List String)
    (fd : CreateFormData) (actors : List String) : ActorSubmitResult :=
  if pyStrip fd.name = "" then
    { requestSent := false
      createError := some "Actor name is required"
      actors := actors }
  else if !fd.auto_generate_image && fd.images.isEmpty then
    { requestSent := false
      createError := some "Please either upload images or select auto-generate"
      actors := actors }
  else
    { requestSent := true
      createError := none
      actors := createAndRefresh fd }

/-! ## Film-school answer submission (`handleSubmitAnswers`)

The `answers` object keyed by question index is an association list; the
backend call and the handling of its response is the oracle `respond`. -/

structure ConsultState where
  questions : List String
  answers : List (Nat × String)
  currentStage : String
  errorMsg : Option String

def handleSubmitAnswers
    (respond : List (Nat × String) → ConsultState → ConsultState)
    (st : ConsultState) : ConsultState × Bool :=
  if st.answers.length ≠ st.questions.length then
    ({ st with errorMsg := some "Please answer all questions before submitting" },
     false)
  else
    let formattedAnswers := (List.range st.questions.length).map
      fun i => (i, (st.answers.lookup i).getD "")
    (respond formattedAnswers { st with errorMsg := none }, true)

/-! ## Character variants (`generate_character_variants`)

`model.generate` and `calculate_image_quality` are external calls, passed in
as the oracles `gen` and `qual`; images are identified by opaque strings. -/

def variant_aspects : List String :=
  ["emotional state and facial expression",
   "body language and posture",
   "interaction with environment",
   "lighting and mood",
   "cinematography and framing"]

structure CharacterVariant where
  image : String
  prompt : String
  quality_score : Int
deriving DecidableEq, Repr

/-- The variants in generation order, before sorting. -/
def generatedVariants (gen : String → String) (qual : String → Int)
    (actor_name prompt_hint scene_desc : String) (num_variants : Nat) :
    List CharacterVariant :=
  let base_prompt :=
    actor_name ++ ", " ++ prompt_hint ++ ", in a scene where " ++ scene_desc
  (List.range num_variants).map fun i =>
    let variant_prompt := base_prompt ++ ", with emphasis on " ++
      variant_aspects.getD (i % variant_aspects.length) ""
    let image := gen variant_prompt
    { image := image, prompt := variant_prompt, quality_score := qual image }

/-- Model of `generate_character_variants(actor_name, scene_desc, num_variants=5)`:
generate the variants, then `variants.sort(key=quality_score, reverse=True)`
(a stable descending sort). -/
def generate_character_variants (gen : String → String) (qual : String → Int)
    (actor_name prompt_hint scene_desc : String) (num_variants : Nat := 5) :
    List CharacterVariant :=
  (generatedVariants gen qual actor_name prompt_hint scene_desc
      num_variants).mergeSort
    fun a b => decide (b.quality_score ≤ a.quality_score)

/-! ## Image-URL formatter (`utils.formatImageUrl`, `api.js`)

JS `null`/`undefined` input is `none`; `!imageUrl` is also true for `""`. -/

def formatImageUrl (baseUrl : String) (imageUrl : Option String) :
    Option String :=
  match imageUrl with
  | none => none
  | some url =>
    if url = "" then none
    else if strStartsWith url "http" then some url
    else if containsSub url "actor_images/" then
      some (baseUrl ++ ("/actor-images/" ++ (jsSplit url "actor_images/").getD 1 ""))
    else if strStartsWith url "/actor-images/" || strStartsWith url "actor-images/" then
      some (baseUrl ++ ((if strStartsWith url "/" then "" else "/") ++ url))
    else if containsSub url "frame_images/" then
      some (baseUrl ++ ("/frame-images/" ++ (jsSplit url "frame_images/").getD 1 ""))
    else if strStartsWith url "/images/" || strStartsWith url "/frame-images/" then
      some (baseUrl ++ url)
    else
      some (baseUrl ++ (if strStartsWith url "/" then url else "/" ++ url))

/-! ## Storyboard page frames (`fetchFramesForPage`, `openFeedbackModal`,
`handleGenerateImage`, `StoryboardView.js`) -/

structure Frame where
  frame_id : String
  description : String
  page : Nat
  frame_on_page : Nat
  is_placeholder : Bool
  image_url : Option String
deriving DecidableEq, Repr

def framesPerPage : Nat := 6

/-- The `i`-th appended placeholder (0-indexed) on `page` after `n` fetched
frames. -/
def placeholderFrame (page n i : Nat) : Frame :=
  { frame_id := "placeholder-" ++ toString page ++ "-" ++ toString i
    description := "Empty frame slot"
    page := page
    frame_on_page := n + i + 1
    is_placeholder := true
    image_url := none }

def fetchFramesForPage (fetched : List Frame) (page : Nat) : List Frame :=
  if fetched.length < framesPerPage then
    fetched ++ (List.range (framesPerPage - fetched.length)).map
      (placeholderFrame page fetched.length)
  else fetched

structure ModalState where
  selectedFrame : Option Frame
  showFeedbackModal : Bool
deriving DecidableEq, Repr

def openFeedbackModal (frame : Frame) (m : ModalState) : ModalState :=
  if frame.is_placeholder then m
  else { selectedFrame := some frame, showFeedbackModal := true }

def handleGenerateImage (api : Frame → Option String) (frame : Frame)
    (frames : List Frame) : List Frame :=
  if frame.is_placeholder then frames
  else
    match api frame with
    | some url =>
      frames.map fun f =>
        if f.frame_id = frame.frame_id then { f with image_url := some url }
        else f
    | none => frames

/-! ## Theorems -/

/-- A list comprehension with a guard is the filter followed by the map. -/
theorem filterMap_guard (p : α → Bool) (f : α → β) (l : List α) :
    (l.filterMap fun x => if p x then some (f x) else none) =
      (l.filter p).map f := by
  induction l with
  | nil => rfl
  | cons a l ih =>
    by_cases h : p a <;>
      simp [List.filterMap_cons, List.filter_cons, h, ih]

/-- C2: with the default `frame_count = 6`, the extractor asks the LLM for 6
key scenes and keeps, in response order, exactly those lines of the (stripped)
completion that are non-blank with a leading decimal digit, each contributing
the trimmed text after its first `'.'`. -/
theorem extract_key_frames_spec (llm : String → String) (script : String) :
    extract_key_frames llm script =
      (((pySplitlines (pyStrip (llm (buildScriptPrompt 6 script)))).filter
          keepLine).map frameDesc) := by
  unfold extract_key_frames parseFramesText
  exact filterMap_guard keepLine frameDesc _

/-- C3: the factory returns the Stable Diffusion generator for
`"stable_diffusion"`, the DALL-E generator for `"dalle"`, and raises
`ValueError("Unsupported model")` for any name outside the supported set. -/
theorem get_image_generator_spec (m : String)
    (h : m ∉ (["stable_diffusion", "dalle", "midjourney"] : List String)) :
    get_image_generator "stable_diffusion" =
        .ok (.stableDiffusionGenerator "stabilityai/stable-diffusion-XL-base-1.0") ∧
    get_image_generator "dalle" = .ok (.dalleGenerator OPENAI_API_KEY) ∧
    get_image_generator m = .error "Unsupported model" := by
  refine ⟨rfl, rfl, ?_⟩
  simp only [List.mem_cons, List.not_mem_nil, or_false, not_or] at h
  obtain ⟨h1, h2, h3⟩ := h
  simp [get_image_generator, h1, h2, h3]

/-- C3 witness: evaluated at the concrete unsupported name `"runway"`. -/
theorem get_image_generator_spec_witness :
    get_image_generator "stable_diffusion" =
        .ok (.stableDiffusionGenerator "stabilityai/stable-diffusion-XL-base-1.0") ∧
    get_image_generator "dalle" = .ok (.dalleGenerator OPENAI_API_KEY) ∧
    get_image_generator "runway" = .error "Unsupported model" :=
  get_image_generator_spec "runway" (by decide)

/-- C6: the four consultation stages map, in order, to the percentages
25, 50, 75, 100 (`Math.round(((index+1)/4)*100)`), and any other stage string
leaves the stored progress value unchanged. -/
theorem updateStageProgress_spec (p : Int) (s : String)
    (h : s ∉ consultationStages) :
    updateStageProgress "initial" p = 25 ∧
    updateStageProgress "character_development" p = 50 ∧
    updateStageProgress "plot_structure" p = 75 ∧
    updateStageProgress "visual_style" p = 100 ∧
    updateStageProgress s p = p := by
  simp only [consultationStages, List.mem_cons, List.not_mem_nil, or_false,
    not_or] at h
  obtain ⟨h1, h2, h3, h4⟩ := h
  refine ⟨?_, ?_, ?_, ?_, ?_⟩
  · have e : jsIndexOf "initial" consultationStages = 0 := by decide
    simp only [updateStageProgress]
    rw [e]
    norm_num [consultationStages, round_eq]
  · have e : jsIndexOf "character_development" consultationStages = 1 := by
      decide
    simp only [updateStageProgress]
    rw [e]
    norm_num [consultationStages, round_eq]
  · have e : jsIndexOf "plot_structure" consultationStages = 2 := by decide
    simp only [updateStageProgress]
    rw [e]
    norm_num [consultationStages, round_eq]
  · have e : jsIndexOf "visual_style" consultationStages = 3 := by decide
    simp only [updateStageProgress]
    rw [e]
    norm_num [consultationStages, round_eq]
  · have e : jsIndexOf s consultationStages = -1 := by
      simp [jsIndexOf, consultationStages, Ne.symm h1, Ne.symm h2, Ne.symm h3,
        Ne.symm h4]
    simp only [updateStageProgress]
    rw [e]
    norm_num

/-- C6 witness: evaluated at the concrete stored value `7` and the concrete
unknown stage `"final_cut"`. -/
theorem updateStageProgress_spec_witness :
    updateStageProgress "initial" 7 = 25 ∧
    updateStageProgress "character_development" 7 = 50 ∧
    updateStageProgress "plot_structure" 7 = 75 ∧
    updateStageProgress "visual_style" 7 = 100 ∧
    updateStageProgress "final_cut" 7 = 7 :=
  updateStageProgress_spec 7 "final_cut" (by decide)

/-- C8: one toggle removes every occurrence of a selected name and appends an
absent name once, and toggling the same name twice restores the original
membership (an involution up to membership). -/
theorem handleActorSelection_spec (prev : List String) (a : String) :
    (a ∈ prev → a ∉ handleActorSelection prev a) ∧
    (∀ x, x ≠ a → (x ∈ handleActorSelection prev a ↔ x ∈ prev)) ∧
    (a ∉ prev → handleActorSelection prev a = prev ++ [a]) ∧
    (∀ x, x ∈ handleActorSelection (handleActorSelection prev a) a ↔
      x ∈ prev) := by
  refine ⟨?_, ?_, ?_, ?_⟩
  · intro ha
    simp [handleActorSelection, ha, List.mem_filter]
  · intro x hx
    by_cases ha : a ∈ prev <;>
      simp [handleActorSelection, ha, List.mem_filter, hx]
  · intro ha
    simp [handleActorSelection, ha]
  · intro x
    by_cases ha : a ∈ prev
    · have h1 : handleActorSelection prev a = prev.filter (fun n => n != a) := by
        simp [handleActorSelection, ha]
      have h2 : a ∉ prev.filter (fun n => n != a) := by
        simp [List.mem_filter]
      rw [h1, handleActorSelection, if_neg h2]
      by_cases hx : x = a
      · subst hx; simp [List.mem_filter, ha]
      · simp [List.mem_filter, hx]
    · have h1 : handleActorSelection prev a = prev ++ [a] := by
        simp [handleActorSelection, ha]
      have h2 : a ∈ prev ++ [a] := by simp
      rw [h1, handleActorSelection, if_pos h2]
      by_cases hx : x = a
      · subst hx; simp [List.mem_filter, ha]
      · simp [List.mem_filter, hx]

/-- C8 witness: evaluated on the concrete selection `["alice", "bob"]` with the
present name `"alice"` and, via membership, the absent name case. -/
theorem handleActorSelection_spec_witness :
    ("alice" ∉ handleActorSelection ["alice", "bob"] "alice") ∧
    ("carol" ∈ handleActorSelection ["alice", "bob"] "carol" ↔
      "carol" ∈ (["alice", "bob"] : List String) ++ ["carol"]) ∧
    (∀ x, x ∈ handleActorSelection
        (handleActorSelection ["alice", "bob"] "alice") "alice" ↔
      x ∈ (["alice", "bob"] : List String)) :=
  ⟨(handleActorSelection_spec ["alice", "bob"] "alice").1 (by decide),
   by
    rw [(handleActorSelection_spec ["alice", "bob"] "carol").2.2.1 (by decide)],
   (handleActorSelection_spec ["alice", "bob"] "alice").2.2.2⟩

/-- C1: for a valid frame index and non-empty feedback `t`, `refine_frame`
regenerates the frame from the prompt `d ++ ". Note: " ++ t` (where `d` is the
frame's description), stores the new image at that index, and leaves every
other frame image and all descriptions unchanged. -/
theorem refine_frame_spec (gen : String → List String → String)
    (st : StoryboardState) (i : Nat) (t : String)
    (_hf : i < st.storyboard_frames.length)
    (hi : i < st.storyboard_images.length) (_ht : t ≠ "") :
    (refine_frame gen st i t).2 =
      gen (st.storyboard_frames.getD i "" ++ ". Note: " ++ t)
        (st.frames_to_actors.getD i []) ∧
    (refine_frame gen st i t).1.storyboard_images[i]? =
      some (refine_frame gen st i t).2 ∧
    (∀ j, j ≠ i →
      (refine_frame gen st i t).1.storyboard_images[j]? =
        st.storyboard_images[j]?) ∧
    (refine_frame gen st i t).1.storyboard_images.length =
      st.storyboard_images.length ∧
    (refine_frame gen st i t).1.storyboard_frames = st.storyboard_frames := by
  refine ⟨rfl, ?_, ?_, ?_, rfl⟩
  · simp [refine_frame, List.getElem?_set_self hi]
  · intro j hj
    simp [refine_frame, List.getElem?_set_ne (Ne.symm hj)]
  · simp [refine_frame, List.length_set]

/-- C1 witness: one frame `"hero rises"` with image `"img0"`, feedback
`"look more scared"`, and a concrete generator. -/
theorem refine_frame_spec_witness :
    (refine_frame (fun d _ => "gen:" ++ d)
        ⟨["hero rises"], [["Alice"]], ["img0"], [("Alice", "kind")]⟩ 0
        "look more scared").2 = "gen:hero rises. Note: look more scared" ∧
    (refine_frame (fun d _ => "gen:" ++ d)
        ⟨["hero rises"], [["Alice"]], ["img0"], [("Alice", "kind")]⟩ 0
        "look more scared").1.storyboard_images[0]? =
      some "gen:hero rises. Note: look more scared" := by
  obtain ⟨h1, h2, -, -, -⟩ :=
    refine_frame_spec (fun d _ => "gen:" ++ d)
      ⟨["hero rises"], [["Alice"]], ["img0"], [("Alice", "kind")]⟩ 0
      "look more scared" (by decide) (by decide) (by decide)
  refine ⟨?_, ?_⟩
  · rw [h1]; decide
  · rw [h2, h1]; decide

/-- C4: a blank actor name, or no uploaded image without auto-generation,
blocks the create request, sets an error, and leaves the actor list
unchanged; the request is sent exactly when the name is non-blank and either
auto-generation is on or an image was uploaded. -/
theorem handleCreateSubmit_spec (create : CreateFormData → List String)
    (fd : CreateFormData) (actors : List String) :
    (pyStrip fd.name = "" ∨ (fd.auto_generate_image = false ∧ fd.images = []) →
      (handleCreateSubmit create fd actors).requestSent = false ∧
      (handleCreateSubmit create fd actors).createError.isSome = true ∧
      (handleCreateSubmit create fd actors).actors = actors) ∧
    ((handleCreateSubmit create fd actors).requestSent = true ↔
      pyStrip fd.name ≠ "" ∧
        (fd.auto_generate_image = true ∨ fd.images ≠ [])) := by
  by_cases h1 : pyStrip fd.name = ""
  · exact ⟨fun _ => by simp [handleCreateSubmit, h1], by simp [handleCreateSubmit, h1]⟩
  · by_cases h2 : fd.auto_generate_image = true
    · constructor
      · rintro (hc | ⟨hc, -⟩)
        · exact absurd hc h1
        · rw [h2] at hc; cases hc
      · simp [handleCreateSubmit, h1, h2]
    · have h2' : fd.auto_generate_image = false := by simpa using h2
      by_cases h3 : fd.images = []
      · constructor
        · intro _
          simp [handleCreateSubmit, h1, h2', h3]
        · simp [handleCreateSubmit, h1, h2', h3]
      · constructor
        · rintro (hc | ⟨-, hc⟩)
          · exact absurd hc h1
          · exact absurd hc h3
        · simp [handleCreateSubmit, h1, h2', h3, List.isEmpty_iff]

/-- C4 witness: a blank name `"  "` is rejected with the list unchanged, and a
named actor with auto-generation on sends the request. -/
theorem handleCreateSubmit_spec_witness :
    ((handleCreateSubmit (fun _ => ["x"]) ⟨"  ", "d", [], false⟩
        ["a"]).requestSent = false ∧
      (handleCreateSubmit (fun _ => ["x"]) ⟨"  ", "d", [], false⟩
        ["a"]).createError.isSome = true ∧
      (handleCreateSubmit (fun _ => ["x"]) ⟨"  ", "d", [], false⟩
        ["a"]).actors = ["a"]) ∧
    (handleCreateSubmit (fun _ => ["x"]) ⟨"Bob", "d", [], true⟩
        ["a"]).requestSent = true :=
  ⟨(handleCreateSubmit_spec (fun _ => ["x"]) ⟨"  ", "d", [], false⟩ ["a"]).1
      (Or.inl (by decide)),
   (handleCreateSubmit_spec (fun _ => ["x"]) ⟨"Bob", "d", [], true⟩ ["a"]).2.mpr
      ⟨by decide, Or.inl rfl⟩⟩

/-- C5: in any reachable answers state (distinct keys, all below the question
count), a missing answer forces the refusal branch: no request, the error
`"Please answer all questions before submitting"`, and questions, answers and
stage unchanged; in general the request is made iff the number of recorded
answers equals the number of questions. -/
theorem handleSubmitAnswers_spec
    (respond : List (Nat × String) → ConsultState → ConsultState)
    (st : ConsultState)
    (hnodup : (st.answers.map Prod.fst).Nodup)
    (hbound : ∀ k ∈ st.answers.map Prod.fst, k < st.questions.length)
    (q : Nat) (hq : q < st.questions.length)
    (hmiss : q ∉ st.answers.map Prod.fst) :
    (handleSubmitAnswers respond st).2 = false ∧
    (handleSubmitAnswers respond st).1.errorMsg =
      some "Please answer all questions before submitting" ∧
    (handleSubmitAnswers respond st).1.questions = st.questions ∧
    (handleSubmitAnswers respond st).1.answers = st.answers ∧
    (handleSubmitAnswers respond st).1.currentStage = st.currentStage ∧
    (∀ st', (handleSubmitAnswers respond st').2 = true ↔
      st'.answers.length = st'.questions.length) := by
  have hlen : st.answers.length ≠ st.questions.length := by
    intro hcontra
    have hkeylen : (st.answers.map Prod.fst).length = st.answers.length :=
      List.length_map _ _
    have hcard := List.toFinset_card_of_nodup hnodup
    have hsub : (st.answers.map Prod.fst).toFinset ⊆
        (Finset.range st.questions.length).erase q := by
      intro k hk
      rw [List.mem_toFinset] at hk
      exact Finset.mem_erase.mpr
        ⟨fun hkq => hmiss (hkq ▸ hk), Finset.mem_range.mpr (hbound k hk)⟩
    have hle := Finset.card_le_card hsub
    rw [Finset.card_erase_of_mem (Finset.mem_range.mpr hq),
      Finset.card_range] at hle
    omega
  refine ⟨?_, ?_, ?_, ?_, ?_, ?_⟩
  · simp [handleSubmitAnswers, hlen]
  · simp [handleSubmitAnswers, hlen]
  · simp [handleSubmitAnswers, hlen]
  · simp [handleSubmitAnswers, hlen]
  · simp [handleSubmitAnswers, hlen]
  · intro st'
    by_cases h : st'.answers.length = st'.questions.length <;>
      simp [handleSubmitAnswers, h]

/-- C5 witness: two questions with only question 1 answered (question 0
missing): the submission is refused with the expected message. -/
theorem handleSubmitAnswers_spec_witness :
    (handleSubmitAnswers (fun _ s => s)
        ⟨["q0", "q1"], [(1, "a")], "initial", none⟩).2 = false ∧
    (handleSubmitAnswers (fun _ s => s)
        ⟨["q0", "q1"], [(1, "a")], "initial", none⟩).1.errorMsg =
      some "Please answer all questions before submitting" ∧
    (handleSubmitAnswers (fun _ s => s)
        ⟨["q0", "q1"], [(1, "a")], "initial", none⟩).1.questions = ["q0", "q1"] ∧
    (handleSubmitAnswers (fun _ s => s)
        ⟨["q0", "q1"], [(1, "a")], "initial", none⟩).1.answers = [(1, "a")] ∧
    (handleSubmitAnswers (fun _ s => s)
        ⟨["q0", "q1"], [(1, "a")], "initial", none⟩).1.currentStage =
      "initial" ∧
    (∀ st', (handleSubmitAnswers (fun _ s => s) st').2 = true ↔
      st'.answers.length = st'.questions.length) :=
  handleSubmitAnswers_spec (fun _ s => s)
    ⟨["q0", "q1"], [(1, "a")], "initial", none⟩ (by decide) (by decide) 0
    (by decide) (by decide)

/-- Prefixes compose: a prefix of `v` that is itself prefixed by `w` makes `w`
a prefix of anything `v` prefixes. -/
theorem strStartsWith_trans {u v w : String} (h1 : strStartsWith u v = true)
    (h2 : strStartsWith v w = true) : strStartsWith u w = true := by
  simp only [strStartsWith, List.isPrefixOf_iff_prefix] at *
  exact h2.trans h1

/-- A prefix of `x` is a prefix of `x ++ y`. -/
theorem strStartsWith_append {x : String} (y : String) {pre : String}
    (h : strStartsWith x pre = true) : strStartsWith (x ++ y) pre = true := by
  simp only [strStartsWith, List.isPrefixOf_iff_prefix] at *
  have he : (x ++ y).toList = x.toList ++ y.toList := by
    simp [String.toList]
  rw [he]
  exact h.trans (List.prefix_append _ _)

/-- C9: the formatter is total: `null`/`undefined`/`""` map to `null`, a URL
already starting with `"http"` is returned unchanged, and every other
non-empty input yields the API base URL followed by a path starting with
`'/'`. -/
theorem formatImageUrl_spec (b u : String) (hu : u ≠ "") :
    formatImageUrl b none = none ∧
    formatImageUrl b (some "") = none ∧
    (strStartsWith u "http" = true → formatImageUrl b (some u) = some u) ∧
    (strStartsWith u "http" = false →
      ∃ p, strStartsWith p "/" = true ∧
        formatImageUrl b (some u) = some (b ++ p)) := by
  refine ⟨rfl, by simp [formatImageUrl], ?_, ?_⟩
  · intro hh
    simp [formatImageUrl, hu, hh]
  · intro hh
    by_cases h1 : containsSub u "actor_images/" = true
    · exact ⟨"/actor-images/" ++ (jsSplit u "actor_images/").getD 1 "",
        strStartsWith_append _ (by decide),
        by simp [formatImageUrl, hu, hh, h1]⟩
    · by_cases h2 :
        (strStartsWith u "/actor-images/" || strStartsWith u "actor-images/") =
          true
      · by_cases hs : strStartsWith u "/" = true
        · refine ⟨"" ++ u, ?_, by simp [formatImageUrl, hu, hh, h1, h2, hs]⟩
          simp only [strStartsWith] at hs ⊢
          rw [show ("" ++ u).toList = u.toList from by simp [String.toList]]
          exact hs
        · exact ⟨"/" ++ u, strStartsWith_append u (by decide),
            by simp [formatImageUrl, hu, hh, h1, h2, hs]⟩
      · by_cases h3 : containsSub u "frame_images/" = true
        · exact ⟨"/frame-images/" ++ (jsSplit u "frame_images/").getD 1 "",
            strStartsWith_append _ (by decide),
            by simp [formatImageUrl, hu, hh, h1, h2, h3]⟩
        · by_cases h4 :
            (strStartsWith u "/images/" || strStartsWith u "/frame-images/") =
              true
          · have hsu : strStartsWith u "/" = true := by
              rcases Bool.or_eq_true_iff.mp h4 with h | h
              · exact strStartsWith_trans h (by decide)
              · exact strStartsWith_trans h (by decide)
            exact ⟨u, hsu, by simp [formatImageUrl, hu, hh, h1, h2, h3, h4]⟩
          · by_cases hs : strStartsWith u "/" = true
            · exact ⟨u, hs,
                by simp [formatImageUrl, hu, hh, h1, h2, h3, h4, hs]⟩
            · exact ⟨"/" ++ u, strStartsWith_append u (by decide),
                by simp [formatImageUrl, hu, hh, h1, h2, h3, h4, hs]⟩

/-- C9 witness: evaluated at the concrete base URL and the bare path
`"frames/pic.png"`. -/
theorem formatImageUrl_spec_witness :
    formatImageUrl "http://localhost:8000" none = none ∧
    formatImageUrl "http://localhost:8000" (some "") = none ∧
    (strStartsWith "frames/pic.png" "http" = true →
      formatImageUrl "http://localhost:8000" (some "frames/pic.png") =
        some "frames/pic.png") ∧
    (strStartsWith "frames/pic.png" "http" = false →
      ∃ p, strStartsWith p "/" = true ∧
        formatImageUrl "http://localhost:8000" (some "frames/pic.png") =
          some ("http://localhost:8000" ++ p)) :=
  formatImageUrl_spec "http://localhost:8000" "frames/pic.png" (by decide)

/-- C7: the `i`-th generated variant (0-indexed) uses exactly the prompt
`"{actor}, {hint}, in a scene where {scene}, with emphasis on {aspect}"` with
`aspect` the `(i % 5)`-th emphasis, and the returned list is a permutation of
the generated variants sorted in non-increasing order of quality score. -/
theorem generate_character_variants_spec (gen : String → String)
    (qual : String → Int) (actor_name prompt_hint scene_desc : String)
    (num i : Nat) (h : i < num) :
    (generatedVariants gen qual actor_name prompt_hint scene_desc num)[i]? =
      some
        { image := gen (actor_name ++ ", " ++ prompt_hint ++
            ", in a scene where " ++ scene_desc ++ ", with emphasis on " ++
            variant_aspects.getD (i % 5) "")
          prompt := actor_name ++ ", " ++ prompt_hint ++
            ", in a scene where " ++ scene_desc ++ ", with emphasis on " ++
            variant_aspects.getD (i % 5) ""
          quality_score := qual (gen (actor_name ++ ", " ++ prompt_hint ++
            ", in a scene where " ++ scene_desc ++ ", with emphasis on " ++
            variant_aspects.getD (i % 5) "")) } ∧
    (generate_character_variants gen qual actor_name prompt_hint scene_desc
        num).Pairwise (fun a b => b.quality_score ≤ a.quality_score) ∧
    (generate_character_variants gen qual actor_name prompt_hint scene_desc
        num).Perm
      (generatedVariants gen qual actor_name prompt_hint scene_desc num) := by
  refine ⟨?_, ?_, List.mergeSort_perm _ _⟩
  · simp only [generatedVariants]
    rw [List.getElem?_map, List.getElem?_range h]
    rfl
  · have hs := @List.sorted_mergeSort CharacterVariant
      (fun a b => decide (b.quality_score ≤ a.quality_score))
      (fun a b c hab hbc => by
        simp only [decide_eq_true_eq] at *
        exact le_trans hbc hab)
      (fun a b => by
        simp only [Bool.or_eq_true, decide_eq_true_eq]
        exact le_total b.quality_score a.quality_score)
      (generatedVariants gen qual actor_name prompt_hint scene_desc num)
    exact hs.imp fun hab => of_decide_eq_true hab

/-- C7 witness: two variants with a concrete generator and concrete quality
scores. -/
theorem generate_character_variants_spec_witness :
    (generatedVariants (fun p => "img:" ++ p) (fun s => (s.length : Int))
        "Alice" "tall" "it rains" 2)[1]? =
      some
        { image := (fun p => "img:" ++ p) ("Alice" ++ ", " ++ "tall" ++
            ", in a scene where " ++ "it rains" ++ ", with emphasis on " ++
            variant_aspects.getD (1 % 5) "")
          prompt := "Alice" ++ ", " ++ "tall" ++ ", in a scene where " ++
            "it rains" ++ ", with emphasis on " ++
            variant_aspects.getD (1 % 5) ""
          quality_score := (fun s => (s.length : Int))
            ((fun p => "img:" ++ p) ("Alice" ++ ", " ++ "tall" ++
              ", in a scene where " ++ "it rains" ++ ", with emphasis on " ++
              variant_aspects.getD (1 % 5) "")) } ∧
    (generate_character_variants (fun p => "img:" ++ p)
        (fun s => (s.length : Int)) "Alice" "tall" "it rains" 2).Pairwise
      (fun a b => b.quality_score ≤ a.quality_score) ∧
    (generate_character_variants (fun p => "img:" ++ p)
        (fun s => (s.length : Int)) "Alice" "tall" "it rains" 2).Perm
      (generatedVariants (fun p => "img:" ++ p) (fun s => (s.length : Int))
        "Alice" "tall" "it rains" 2) :=
  generate_character_variants_spec (fun p => "img:" ++ p)
    (fun s => (s.length : Int)) "Alice" "tall" "it rains" 2 1 (by decide)

/-- C10: the displayed frame list keeps the `n` fetched frames unchanged in
order and has length `max n 6`; when `n < 6` exactly `6 - n` placeholders are
appended, marked `is_placeholder` on the current page with `frame_on_page`
continuing from `n + 1`; a placeholder never opens the feedback modal and
never triggers image generation. -/
theorem fetchFramesForPage_spec (fetched : List Frame) (page : Nat) :
    (fetchFramesForPage fetched page).length =
      max fetched.length framesPerPage ∧
    (fetchFramesForPage fetched page).take fetched.length = fetched ∧
    (fetchFramesForPage fetched page).drop fetched.length =
      (List.range (framesPerPage - fetched.length)).map
        (placeholderFrame page fetched.length) ∧
    (∀ f ∈ (fetchFramesForPage fetched page).drop fetched.length,
      f.is_placeholder = true ∧ f.page = page ∧
        f.description = "Empty frame slot") ∧
    (∀ i, i < framesPerPage - fetched.length →
      ((fetchFramesForPage fetched page).drop fetched.length)[i]?.map
        Frame.frame_on_page = some (fetched.length + i + 1)) ∧
    (∀ f : Frame, f.is_placeholder = true →
      (∀ m, openFeedbackModal f m = m) ∧
      (∀ api frames, handleGenerateImage api f frames = frames)) := by
  have hdrop : (fetchFramesForPage fetched page).drop fetched.length =
      (List.range (framesPerPage - fetched.length)).map
        (placeholderFrame page fetched.length) := by
    by_cases h : fetched.length < framesPerPage
    · simp only [fetchFramesForPage, if_pos h]
      exact List.drop_left _ _
    · simp only [fetchFramesForPage, if_neg h]
      rw [List.drop_length, Nat.sub_eq_zero_of_le (Nat.le_of_not_lt h)]
      rfl
  refine ⟨?_, ?_, hdrop, ?_, ?_, ?_⟩
  · by_cases h : fetched.length < framesPerPage
    · rw [fetchFramesForPage, if_pos h]
      simp only [List.length_append, List.length_map, List.length_range]
      simp only [framesPerPage] at h ⊢
      omega
    · rw [fetchFramesForPage, if_neg h]
      simp only [framesPerPage] at h ⊢
      omega
  · by_cases h : fetched.length < framesPerPage
    · rw [fetchFramesForPage, if_pos h]
      exact List.take_left _ _
    · rw [fetchFramesForPage, if_neg h]
      apply List.take_length
  · intro f hf
    rw [hdrop] at hf
    simp only [List.mem_map] at hf
    obtain ⟨j, -, rfl⟩ := hf
    exact ⟨rfl, rfl, rfl⟩
  · intro i hi
    rw [hdrop, List.getElem?_map, List.getElem?_range hi]
    rfl
  · intro f hpf
    constructor
    · intro m
      simp [openFeedbackModal, hpf]
    · intro api frames
      simp [handleGenerateImage, hpf]

/-- C10 witness: one fetched frame on page 2 gets five appended placeholders
with `frame_on_page` continuing from 2. -/
theorem fetchFramesForPage_spec_witness :
    (fetchFramesForPage [⟨"f1", "a duel", 2, 1, false, none⟩] 2).length =
      max ([⟨"f1", "a duel", 2, 1, false, none⟩] : List Frame).length
        framesPerPage ∧
    (fetchFramesForPage [⟨"f1", "a duel", 2, 1, false, none⟩] 2).take 1 =
      [⟨"f1", "a duel", 2, 1, false, none⟩] ∧
    (fetchFramesForPage [⟨"f1", "a duel", 2, 1, false, none⟩] 2).drop 1 =
      (List.range (framesPerPage - 1)).map (placeholderFrame 2 1) ∧
    (∀ f ∈ (fetchFramesForPage [⟨"f1", "a duel", 2, 1, false, none⟩] 2).drop 1,
      f.is_placeholder = true ∧ f.page = 2 ∧
        f.description = "Empty frame slot") ∧
    (∀ i, i < framesPerPage - 1 →
      ((fetchFramesForPage [⟨"f1", "a duel", 2, 1, false, none⟩] 2).drop
          1)[i]?.map Frame.frame_on_page = some (1 + i + 1)) ∧
    (∀ f : Frame, f.is_placeholder = true →
      (∀ m, openFeedbackModal f m = m) ∧
      (∀ api frames, handleGenerateImage api f frames = frames)) :=
  fetchFramesForPage_spec [⟨"f1", "a duel", 2, 1, false, none⟩] 2

end StoryboardAI
